import Mathlib

/-!
Verification development for the lifestats frontend chart components.

The definitions below are a shallow embedding of the chart-data-shaping
logic of the repository:

* `src/frontend/src/lib/components/BookStatsChart.svelte` (view-mode
  version): book statistics chart with verses/passages toggle, testament
  divider plugin, per-testament totals table;
* the weekly study chart component (`src/unnamed/part_001`) and the
  weekly church chart component (`src/unnamed/part_000`);
* `src/frontend/src/lib/theme/chartColors.ts`.

Machine numbers that are counts (verse/passage counts, minutes) are
embedded as `Nat`; tooltip `parsed.y` values, typed `number | null` in the
source, are embedded as `Option Int`; pixel coordinates produced by the
charting engine's `getPixelForValue` are embedded as `ℚ`.  Concrete color
values come from the external `tailwindcss/colors` package; they are
embedded as their tailwind token names, which is enough because no claim
depends on a concrete color value.
-/

/-- The `ViewMode` union type: `'verses' | 'passages'`. -/
inductive ViewMode
  | verses
  | passages
deriving DecidableEq

/-- The `testament` discriminant `'OT' | 'NT'` of `BookWithTestament`. -/
inductive Testament
  | OT
  | NT
deriving DecidableEq

/-- The three proficiency-tier field selectors `'mature' | 'young' | 'learning'`
passed to `getValue`. -/
inductive Tier
  | mature
  | young
  | learning
deriving DecidableEq

/-- `BookStats` from `$lib/api/client`: one book's per-tier counts in both
units, as read by the component. -/
structure BookStats where
  book : String
  mature_verses : Nat
  young_verses : Nat
  learning_verses : Nat
  mature_passages : Nat
  young_passages : Nat
  learning_passages : Nat
deriving DecidableEq

/-- One testament's data inside `BibleStats`: the per-book records plus the
backend-computed per-tier totals read by the summary table. -/
structure TestamentStats where
  book_stats : List BookStats
  learning_verses : Nat
  young_verses : Nat
  mature_verses : Nat
  learning_passages : Nat
  young_passages : Nat
  mature_passages : Nat
deriving DecidableEq

/-- `BibleStats` from `$lib/api/client`: the component's `data` prop. -/
structure BibleStats where
  old_testament : TestamentStats
  new_testament : TestamentStats
deriving DecidableEq

/-- `BookWithTestament extends BookStats`: the TS object spread
`{ ...book, testament }` is embedded as a record pairing the book's stats
with its testament tag. -/
structure BookWithTestament where
  stats : BookStats
  testament : Testament
deriving DecidableEq

/-- `combinedBooks`: OT books then NT books, each tagged with its testament
(BookStatsChart.svelte lines 522-525). -/
def combinedBooks (data : BibleStats) : List BookWithTestament :=
  data.old_testament.book_stats.map (fun book => { stats := book, testament := Testament.OT })
    ++ data.new_testament.book_stats.map (fun book => { stats := book, testament := Testament.NT })

/-- `hasData` (BookStatsChart.svelte lines 528-533): a book has data for the
current view mode when some tier count in the selected unit is positive. -/
def hasData (book : BookStats) (mode : ViewMode) : Bool :=
  match mode with
  | ViewMode.verses =>
      decide (book.mature_verses > 0) || decide (book.young_verses > 0)
        || decide (book.learning_verses > 0)
  | ViewMode.passages =>
      decide (book.mature_passages > 0) || decide (book.young_passages > 0)
        || decide (book.learning_passages > 0)

/-- `combinedBooksFiltered` (line 535). -/
def combinedBooksFiltered (data : BibleStats) (viewMode : ViewMode) : List BookWithTestament :=
  (combinedBooks data).filter (fun book => hasData book.stats viewMode)

/-- `otBooksFiltered` (lines 538-540). -/
def otBooksFiltered (data : BibleStats) (viewMode : ViewMode) : List BookStats :=
  data.old_testament.book_stats.filter (fun book => hasData book viewMode)

/-- `ntBooksFiltered` (lines 541-543). -/
def ntBooksFiltered (data : BibleStats) (viewMode : ViewMode) : List BookStats :=
  data.new_testament.book_stats.filter (fun book => hasData book viewMode)

/-- JavaScript `Array.prototype.findIndex`: the index of the first element
satisfying the predicate, `-1` when none does. -/
def findIndexJS {α : Type} (p : α → Bool) : List α → Int
  | [] => -1
  | x :: xs =>
      if p x then 0
      else
        let rest := findIndexJS p xs
        if rest = -1 then -1 else rest + 1

/-- `ntStartIndex` (line 546): index of the first NT entry of the filtered
combined list, `-1` when there is none. -/
def ntStartIndex (data : BibleStats) (viewMode : ViewMode) : Int :=
  findIndexJS (fun book => book.testament == Testament.NT) (combinedBooksFiltered data viewMode)

/-- `getValue` (lines 549-554); the source closure's captured `viewMode` is
an explicit first argument here. -/
def getValue (viewMode : ViewMode) (book : BookStats) (field : Tier) : Nat :=
  match viewMode, field with
  | ViewMode.verses, Tier.mature => book.mature_verses
  | ViewMode.verses, Tier.young => book.young_verses
  | ViewMode.verses, Tier.learning => book.learning_verses
  | ViewMode.passages, Tier.mature => book.mature_passages
  | ViewMode.passages, Tier.young => book.young_passages
  | ViewMode.passages, Tier.learning => book.learning_passages

/-- `unitLabel` (line 557). -/
def unitLabel (viewMode : ViewMode) : String :=
  match viewMode with
  | ViewMode.verses => "verses"
  | ViewMode.passages => "passages"

/-- One testament's palette in `chartColors.book` (chartColors.ts). -/
structure TestamentPalette where
  mature : String
  young : String
  learning : String
  border : String
  hover : String
deriving DecidableEq

/-- One role's palette in `chartColors.bar` (chartColors.ts). -/
structure BarPalette where
  blue : String
  red : String
  green : String
  orange : String
  purple : String
deriving DecidableEq

/-- `chartColors.bar`. -/
structure BarColors where
  background : BarPalette
  border : BarPalette
  hover : BarPalette
deriving DecidableEq

/-- `chartColors.book`. -/
structure BookColors where
  oldTestament : TestamentPalette
  newTestament : TestamentPalette
deriving DecidableEq

/-- `chartColors.label`. -/
structure LabelColors where
  red : String
  gray : String
deriving DecidableEq

/-- `chartColors.grid`. -/
structure GridColors where
  gray : String
deriving DecidableEq

/-- Shape of the `chartColors` palette object. -/
structure ChartColorsShape where
  bar : BarColors
  book : BookColors
  label : LabelColors
  grid : GridColors
deriving DecidableEq

/-- `chartColors` (chartColors.ts): concrete values come from the external
`tailwindcss/colors` package and are embedded as their tailwind token names. -/
def chartColors : ChartColorsShape :=
  { bar :=
      { background :=
          { blue := "blue-500", red := "red-500", green := "green-500"
          , orange := "orange-500", purple := "purple-500" }
      , border :=
          { blue := "blue-600", red := "red-600", green := "green-600"
          , orange := "orange-600", purple := "purple-600" }
      , hover :=
          { blue := "blue-600", red := "red-600", green := "green-600"
          , orange := "orange-600", purple := "purple-600" } }
  , book :=
      { oldTestament :=
          { mature := "blue-600", young := "blue-400", learning := "blue-200"
          , border := "blue-700", hover := "blue-700" }
      , newTestament :=
          { mature := "purple-600", young := "purple-400", learning := "purple-200"
          , border := "purple-700", hover := "purple-700" } }
  , label := { red := "red-600", gray := "gray-500" }
  , grid := { gray := "gray-200" } }

/-- A dataset of the combined desktop chart: per-bar color arrays. -/
structure PerBarDataset where
  label : String
  data : List Nat
  backgroundColor : List String
  borderColor : List String
  borderWidth : Nat
  borderRadius : Nat
  hoverBackgroundColor : List String
  stack : String
deriving DecidableEq

/-- A dataset whose colors are uniform scalars (mobile testament charts and
both weekly charts). -/
structure UniformDataset where
  label : String
  data : List Nat
  backgroundColor : String
  borderColor : String
  borderWidth : Nat
  borderRadius : Nat
  hoverBackgroundColor : String
  stack : String
deriving DecidableEq

/-- Chart.js chart-data object: labels plus datasets. -/
structure ChartData (D : Type) where
  labels : List String
  datasets : List D
deriving DecidableEq

/-- `combinedChartData` (BookStatsChart.svelte lines 560-633). -/
def combinedChartData (data : BibleStats) (viewMode : ViewMode) : ChartData PerBarDataset :=
  { labels := (combinedBooksFiltered data viewMode).map (fun book => book.stats.book)
  , datasets :=
      [ { label := "Mature"
        , data := (combinedBooksFiltered data viewMode).map
            (fun book => getValue viewMode book.stats Tier.mature)
        , backgroundColor := (combinedBooksFiltered data viewMode).map
            (fun book =>
              if book.testament == Testament.OT then chartColors.book.oldTestament.mature
              else chartColors.book.newTestament.mature)
        , borderColor := (combinedBooksFiltered data viewMode).map
            (fun book =>
              if book.testament == Testament.OT then chartColors.book.oldTestament.border
              else chartColors.book.newTestament.border)
        , borderWidth := 1
        , borderRadius := 4
        , hoverBackgroundColor := (combinedBooksFiltered data viewMode).map
            (fun book =>
              if book.testament == Testament.OT then chartColors.book.oldTestament.hover
              else chartColors.book.newTestament.hover)
        , stack := "stack0" }
      , { label := "Young"
        , data := (combinedBooksFiltered data viewMode).map
            (fun book => getValue viewMode book.stats Tier.young)
        , backgroundColor := (combinedBooksFiltered data viewMode).map
            (fun book =>
              if book.testament == Testament.OT then chartColors.book.oldTestament.young
              else chartColors.book.newTestament.young)
        , borderColor := (combinedBooksFiltered data viewMode).map
            (fun book =>
              if book.testament == Testament.OT then chartColors.book.oldTestament.border
              else chartColors.book.newTestament.border)
        , borderWidth := 1
        , borderRadius := 4
        , hoverBackgroundColor := (combinedBooksFiltered data viewMode).map
            (fun book =>
              if book.testament == Testament.OT then chartColors.book.oldTestament.hover
              else chartColors.book.newTestament.hover)
        , stack := "stack0" }
      , { label := "Learning"
        , data := (combinedBooksFiltered data viewMode).map
            (fun book => getValue viewMode book.stats Tier.learning)
        , backgroundColor := (combinedBooksFiltered data viewMode).map
            (fun book =>
              if book.testament == Testament.OT then chartColors.book.oldTestament.learning
              else chartColors.book.newTestament.learning)
        , borderColor := (combinedBooksFiltered data viewMode).map
            (fun book =>
              if book.testament == Testament.OT then chartColors.book.oldTestament.border
              else chartColors.book.newTestament.border)
        , borderWidth := 1
        , borderRadius := 4
        , hoverBackgroundColor := (combinedBooksFiltered data viewMode).map
            (fun book =>
              if book.testament == Testament.OT then chartColors.book.oldTestament.hover
              else chartColors.book.newTestament.hover)
        , stack := "stack0" }
      ] }

/-- `createTestamentChartData` (lines 708-748): chart data of one mobile
testament chart. -/
def createTestamentChartData (books : List BookStats) (colors : TestamentPalette)
    (mode : ViewMode) : ChartData UniformDataset :=
  { labels := books.map (fun book => book.book)
  , datasets :=
      [ { label := "Mature"
        , data := books.map
            (fun book => if mode = ViewMode.verses then book.mature_verses else book.mature_passages)
        , backgroundColor := colors.mature
        , borderColor := colors.border
        , borderWidth := 1
        , borderRadius := 4
        , hoverBackgroundColor := colors.hover
        , stack := "stack0" }
      , { label := "Young"
        , data := books.map
            (fun book => if mode = ViewMode.verses then book.young_verses else book.young_passages)
        , backgroundColor := colors.young
        , borderColor := colors.border
        , borderWidth := 1
        , borderRadius := 4
        , hoverBackgroundColor := colors.hover
        , stack := "stack0" }
      , { label := "Learning"
        , data := books.map
            (fun book =>
              if mode = ViewMode.verses then book.learning_verses else book.learning_passages)
        , backgroundColor := colors.learning
        , borderColor := colors.border
        , borderWidth := 1
        , borderRadius := 4
        , hoverBackgroundColor := colors.hover
        , stack := "stack0" }
      ] }

/-- `otChartData` (lines 751-753). -/
def otChartData (data : BibleStats) (viewMode : ViewMode) : ChartData UniformDataset :=
  createTestamentChartData (otBooksFiltered data viewMode) chartColors.book.oldTestament viewMode

/-- `ntChartData` (lines 754-756). -/
def ntChartData (data : BibleStats) (viewMode : ViewMode) : ChartData UniformDataset :=
  createTestamentChartData (ntBooksFiltered data viewMode) chartColors.book.newTestament viewMode

/-- `otLearning` (lines 814-818). -/
def otLearning (data : BibleStats) (viewMode : ViewMode) : Nat :=
  if viewMode = ViewMode.verses then data.old_testament.learning_verses
  else data.old_testament.learning_passages

/-- `otYoung` (lines 819-821). -/
def otYoung (data : BibleStats) (viewMode : ViewMode) : Nat :=
  if viewMode = ViewMode.verses then data.old_testament.young_verses
  else data.old_testament.young_passages

/-- `otMature` (lines 822-824). -/
def otMature (data : BibleStats) (viewMode : ViewMode) : Nat :=
  if viewMode = ViewMode.verses then data.old_testament.mature_verses
  else data.old_testament.mature_passages

/-- `otTotal` (line 825). -/
def otTotal (data : BibleStats) (viewMode : ViewMode) : Nat :=
  otLearning data viewMode + otYoung data viewMode + otMature data viewMode

/-- `ntLearning` (lines 827-831). -/
def ntLearning (data : BibleStats) (viewMode : ViewMode) : Nat :=
  if viewMode = ViewMode.verses then data.new_testament.learning_verses
  else data.new_testament.learning_passages

/-- `ntYoung` (lines 832-834). -/
def ntYoung (data : BibleStats) (viewMode : ViewMode) : Nat :=
  if viewMode = ViewMode.verses then data.new_testament.young_verses
  else data.new_testament.young_passages

/-- `ntMature` (lines 835-837). -/
def ntMature (data : BibleStats) (viewMode : ViewMode) : Nat :=
  if viewMode = ViewMode.verses then data.new_testament.mature_verses
  else data.new_testament.mature_passages

/-- `ntTotal` (line 838). -/
def ntTotal (data : BibleStats) (viewMode : ViewMode) : Nat :=
  ntLearning data viewMode + ntYoung data viewMode + ntMature data viewMode

/-- `totalLearning` (line 840). -/
def totalLearning (data : BibleStats) (viewMode : ViewMode) : Nat :=
  otLearning data viewMode + ntLearning data viewMode

/-- `totalYoung` (line 841). -/
def totalYoung (data : BibleStats) (viewMode : ViewMode) : Nat :=
  otYoung data viewMode + ntYoung data viewMode

/-- `totalMature` (line 842). -/
def totalMature (data : BibleStats) (viewMode : ViewMode) : Nat :=
  otMature data viewMode + ntMature data viewMode

/-- `grandTotal` (line 843). -/
def grandTotal (data : BibleStats) (viewMode : ViewMode) : Nat :=
  totalLearning data viewMode + totalYoung data viewMode + totalMature data viewMode

/-- The chart area handed to the divider plugin by the charting engine. -/
structure ChartArea where
  top : ℚ
  bottom : ℚ
deriving DecidableEq

/-- The dashed vertical guide the divider plugin strokes on the canvas:
a segment from `(x, yTop)` to `(x, yBottom)`. -/
structure DividerLine where
  x : ℚ
  yTop : ℚ
  yBottom : ℚ
deriving DecidableEq

/-- The drawing effect of `testamentDividerPlugin.afterDatasetsDraw`
(BookStatsChart.svelte lines 474-498): `options.ntStartIndex` may be absent
(`none` embeds `undefined`), the canvas side effect is embedded as the
`Option` of the line drawn, `none` when the early return fires. -/
def testamentDividerDraw (ntStartIndex : Option Int) (getPixelForValue : Int → ℚ)
    (chartArea : ChartArea) : Option DividerLine :=
  match ntStartIndex with
  | none => none
  | some ntIdx =>
      if ntIdx = -1 ∨ ntIdx = 0 then none
      else
        let lastOTPosition := getPixelForValue (ntIdx - 1)
        let firstNTPosition := getPixelForValue ntIdx
        let dividerX := (lastOTPosition + firstNTPosition) / 2
        some { x := dividerX, yTop := chartArea.top, yBottom := chartArea.bottom }

/-- `item.parsed` of a Chart.js tooltip item: `y` is `number | null`. -/
structure Parsed where
  y : Option Int
deriving DecidableEq

/-- One element of the `tooltipItems` array handed to the footer callback. -/
structure TooltipItem where
  parsed : Parsed
deriving DecidableEq

/-- The tooltip `footer` callback (BookStatsChart.svelte lines 669-672):
sums `item.parsed.y ?? 0` with `reduce` from 0 and renders
`Total: <sum> <unitLabel>`; the source closure's captured `unitLabel` is an
explicit first argument here. -/
def footer (unitLabel : String) (tooltipItems : List TooltipItem) : String :=
  let total := tooltipItems.foldl (fun sum item => sum + item.parsed.y.getD 0) 0
  "Total: " ++ toString total ++ " " ++ unitLabel

/-- One element of `FaithWeeklyStats.weeks` as read by the weekly charts:
`week_start` is an ISO `YYYY-MM-DD` date string; `at_church_daily_minutes`
is indexed Sunday..Saturday. -/
structure WeekStats where
  week_start : String
  reading_minutes : Nat
  prayer_minutes : Nat
  anki_minutes : Nat
  at_church_daily_minutes : List Nat
deriving DecidableEq

/-- `FaithWeeklyStats` from `$lib/api/client` as read by the weekly charts. -/
structure FaithWeeklyStats where
  weeks : List WeekStats
deriving DecidableEq

/-- `formatDate` (both weekly components): parse the ISO date string with
`Temporal.PlainDate.from` and render `month/day` without zero padding. -/
def formatDate (dateStr : String) : String :=
  let parts := dateStr.splitOn "-"
  let month := ((parts.getD 1 "").toNat?).getD 0
  let day := ((parts.getD 2 "").toNat?).getD 0
  toString month ++ "/" ++ toString day

/-- `chartData` of the weekly study chart component (src/unnamed/part_001
lines 33-70). -/
def weeklyStudyChartData (data : FaithWeeklyStats) : ChartData UniformDataset :=
  { labels := data.weeks.map (fun week => formatDate week.week_start)
  , datasets :=
      [ { label := "Reading"
        , data := data.weeks.map (fun week => week.reading_minutes)
        , backgroundColor := chartColors.bar.background.green
        , borderColor := chartColors.bar.border.green
        , borderWidth := 1
        , borderRadius := 4
        , hoverBackgroundColor := chartColors.bar.hover.green
        , stack := "stack0" }
      , { label := "Prayer"
        , data := data.weeks.map (fun week => week.prayer_minutes)
        , backgroundColor := chartColors.bar.background.purple
        , borderColor := chartColors.bar.border.purple
        , borderWidth := 1
        , borderRadius := 4
        , hoverBackgroundColor := chartColors.bar.hover.purple
        , stack := "stack0" }
      , { label := "Memorization"
        , data := data.weeks.map (fun week => week.anki_minutes)
        , backgroundColor := chartColors.bar.background.blue
        , borderColor := chartColors.bar.border.blue
        , borderWidth := 1
        , borderRadius := 4
        , hoverBackgroundColor := chartColors.bar.hover.blue
        , stack := "stack0" }
      ] }

/-- `dayNames` of the weekly church chart component (src/unnamed/part_000
line 28). -/
def dayNames : List String :=
  ["Sunday", "Monday", "Tuesday", "Wednesday", "Thursday", "Friday", "Saturday"]

/-- One entry of `dayColors`. -/
structure DayColor where
  bg : String
  border : String
  hover : String
deriving DecidableEq

/-- `dayColors` (src/unnamed/part_000 lines 31-39); concrete values come
from `tailwindcss/colors` and are embedded as tailwind token names. -/
def dayColors : List DayColor :=
  [ { bg := "orange-800", border := "orange-900", hover := "orange-900" }
  , { bg := "orange-700", border := "orange-800", hover := "orange-800" }
  , { bg := "orange-600", border := "orange-700", hover := "orange-700" }
  , { bg := "orange-500", border := "orange-600", hover := "orange-600" }
  , { bg := "orange-400", border := "orange-500", hover := "orange-500" }
  , { bg := "orange-300", border := "orange-400", hover := "orange-400" }
  , { bg := "orange-200", border := "orange-300", hover := "orange-300" }
  ]

/-- `chartData` of the weekly church chart component (src/unnamed/part_000
lines 49-63): one dataset per day of the week, keeping only datasets with
some positive value; `week.at_church_daily_minutes[dayIndex] || 0` is
embedded as `getD dayIndex 0`. -/
def weeklyChurchChartData (data : FaithWeeklyStats) : ChartData UniformDataset :=
  { labels := data.weeks.map (fun week => formatDate week.week_start)
  , datasets :=
      (dayNames.enum.map (fun di =>
        ({ label := di.2
         , data := data.weeks.map (fun week => week.at_church_daily_minutes.getD di.1 0)
         , backgroundColor := (dayColors.getD di.1 { bg := "", border := "", hover := "" }).bg
         , borderColor := (dayColors.getD di.1 { bg := "", border := "", hover := "" }).border
         , borderWidth := 1
         , borderRadius := 4
         , hoverBackgroundColor := (dayColors.getD di.1 { bg := "", border := "", hover := "" }).hover
         , stack := "stack0" } : UniformDataset))).filter
        (fun dataset => dataset.data.any (fun value => decide (value > 0))) }

/-- Modelled from the spec: `formatMinutesToHoursMinutes` is imported from
`$lib/utils/timeFormat`, a repository module whose source is not among the
provided files.  Spec 4.3 and 8: integer division with remainder, no other
rounding; 0 renders "0m", 59 renders "59m", 60 renders "1h 0m", 125 renders
"2h 5m". -/
def formatMinutesToHoursMinutes (minutes : Nat) : String :=
  if minutes < 60 then toString minutes ++ "m"
  else toString (minutes / 60) ++ "h " ++ toString (minutes % 60) ++ "m"

/-- Input contract (spec 6) for one testament: the backend-computed per-tier
totals agree with the sums over the per-book records. -/
def TestamentStats.Wf (t : TestamentStats) : Prop :=
  t.learning_verses = (t.book_stats.map (fun b => b.learning_verses)).sum
    ∧ t.young_verses = (t.book_stats.map (fun b => b.young_verses)).sum
    ∧ t.mature_verses = (t.book_stats.map (fun b => b.mature_verses)).sum
    ∧ t.learning_passages = (t.book_stats.map (fun b => b.learning_passages)).sum
    ∧ t.young_passages = (t.book_stats.map (fun b => b.young_passages)).sum
    ∧ t.mature_passages = (t.book_stats.map (fun b => b.mature_passages)).sum

instance (t : TestamentStats) : Decidable t.Wf := by
  unfold TestamentStats.Wf
  infer_instance

/-- Input contract (spec 6) for a whole `BibleStats` value. -/
def BibleStats.Wf (data : BibleStats) : Prop :=
  data.old_testament.Wf ∧ data.new_testament.Wf

instance (data : BibleStats) : Decidable data.Wf := by
  unfold BibleStats.Wf
  infer_instance

/-- Example book for concrete witnesses: one mature verse, two mature
passages. -/
def exBook : BookStats :=
  { book := "Genesis", mature_verses := 1, young_verses := 0, learning_verses := 0
  , mature_passages := 2, young_passages := 0, learning_passages := 0 }

/-- Example `BibleStats` input satisfying the input contract, with an empty
New Testament (an all-OT input). -/
def exBible : BibleStats :=
  { old_testament :=
      { book_stats := [exBook], learning_verses := 0, young_verses := 0, mature_verses := 1
      , learning_passages := 0, young_passages := 0, mature_passages := 2 }
  , new_testament :=
      { book_stats := [], learning_verses := 0, young_verses := 0, mature_verses := 0
      , learning_passages := 0, young_passages := 0, mature_passages := 0 } }

/-- A book with verse counts 0,0,0 and passage counts 3,0,0. -/
def passagesOnlyBook : BookStats :=
  { book := "Philemon", mature_verses := 0, young_verses := 0, learning_verses := 0
  , mature_passages := 3, young_passages := 0, learning_passages := 0 }

/-- A dataset whose one NT book has passages but no verses. -/
def passagesOnlyBible : BibleStats :=
  { old_testament :=
      { book_stats := [], learning_verses := 0, young_verses := 0, mature_verses := 0
      , learning_passages := 0, young_passages := 0, mature_passages := 0 }
  , new_testament :=
      { book_stats := [passagesOnlyBook], learning_verses := 0, young_verses := 0
      , mature_verses := 0, learning_passages := 0, young_passages := 0, mature_passages := 3 } }

/-- Example coordinate-mapping function for witnesses. -/
def exPixel : Int → ℚ := fun i => i

/-- Example chart area for witnesses. -/
def exArea : ChartArea := { top := 0, bottom := 10 }

/-- `findIndexJS` yields the no-match sentinel `-1` when no element
satisfies the predicate. -/
theorem findIndexJS_eq_neg_one_of_none {α : Type} (p : α → Bool) (l : List α)
    (h : ∀ x ∈ l, p x = false) : findIndexJS p l = -1 := by
  induction l with
  | nil => rfl
  | cons x xs ih =>
      rw [findIndexJS, h x (List.mem_cons_self x xs)]
      simp [ih (fun y hy => h y (List.mem_cons_of_mem x hy))]

/-- Filtering by `hasData` commutes with tagging a testament's book list. -/
theorem filter_hasData_map_tag (l : List BookStats) (t : Testament) (mode : ViewMode) :
    (l.map (fun book => ({ stats := book, testament := t } : BookWithTestament))).filter
        (fun book => hasData book.stats mode)
      = (l.filter (fun book => hasData book mode)).map
          (fun book => { stats := book, testament := t }) := by
  rw [List.filter_map]
  rfl

/-- The filtered combined list is the tagged filtered OT list followed by
the tagged filtered NT list. -/
theorem combinedBooksFiltered_eq (data : BibleStats) (mode : ViewMode) :
    combinedBooksFiltered data mode
      = (otBooksFiltered data mode).map
          (fun book => { stats := book, testament := Testament.OT })
        ++ (ntBooksFiltered data mode).map
          (fun book => { stats := book, testament := Testament.NT }) := by
  rw [combinedBooksFiltered, combinedBooks, List.filter_append,
    filter_hasData_map_tag, filter_hasData_map_tag]
  rfl

/-- C1: a book appears in the combined chart's derived arrays exactly when
some tier count in the selected unit is non-zero; the chart labels are the
names of the filtered books, and a book with verse counts 0,0,0 and passage
counts 3,0,0 is absent in verses mode and present in passages mode. -/
theorem chart_inclusion_iff_nonzero_tier :
    (∀ (data : BibleStats) (mode : ViewMode) (b : BookWithTestament),
        b ∈ combinedBooksFiltered data mode ↔
          b ∈ combinedBooks data ∧
            ((mode = ViewMode.verses ∧
                (b.stats.mature_verses ≠ 0 ∨ b.stats.young_verses ≠ 0
                  ∨ b.stats.learning_verses ≠ 0))
              ∨ (mode = ViewMode.passages ∧
                (b.stats.mature_passages ≠ 0 ∨ b.stats.young_passages ≠ 0
                  ∨ b.stats.learning_passages ≠ 0))))
      ∧ (∀ (data : BibleStats) (mode : ViewMode),
          (combinedChartData data mode).labels
            = (combinedBooksFiltered data mode).map (fun b => b.stats.book))
      ∧ combinedBooksFiltered passagesOnlyBible ViewMode.verses = []
      ∧ combinedBooksFiltered passagesOnlyBible ViewMode.passages
          = [{ stats := passagesOnlyBook, testament := Testament.NT }] := by
  refine ⟨?_, fun data mode => rfl, by decide, by decide⟩
  intro data mode b
  rw [combinedBooksFiltered, List.mem_filter]
  cases mode <;> simp [hasData, Nat.pos_iff_ne_zero] <;> tauto

/-- C4: whenever the testament divider is drawn, its x position is the
arithmetic mean of the pixel positions of the last OT bar (index
`ntIdx - 1`) and the first NT bar (index `ntIdx`), for every
coordinate-mapping function and chart area supplied by the chart. -/
theorem divider_x_is_midpoint (ntIdx : Int) (h : 1 ≤ ntIdx) (f : Int → ℚ)
    (area : ChartArea) :
    testamentDividerDraw (some ntIdx) f area
      = some { x := (f (ntIdx - 1) + f ntIdx) / 2
             , yTop := area.top, yBottom := area.bottom } := by
  have hc : ¬(ntIdx = -1 ∨ ntIdx = 0) := by omega
  simp [testamentDividerDraw, hc]

/-- C4 witness: at boundary index 1 with concrete coordinate mapping and
chart area, the divider is drawn at the midpoint. -/
theorem divider_x_is_midpoint_witness :
    testamentDividerDraw (some 1) exPixel exArea
      = some { x := (exPixel (1 - 1) + exPixel 1) / 2
             , yTop := exArea.top, yBottom := exArea.bottom } :=
  divider_x_is_midpoint 1 (by norm_num) exPixel exArea

/-- C5: the tooltip footer renders "Total: <sum> <unit>" where the sum adds
the items' parsed values with null treated as 0; three items with values
2, 0, 5 yield "Total: 7 verses" under the verses unit label. -/
theorem tooltip_footer_total :
    (∀ (u : String) (tooltipItems : List TooltipItem),
        footer u tooltipItems
          = "Total: "
              ++ toString ((tooltipItems.map (fun item => item.parsed.y.getD 0)).sum)
              ++ " " ++ u)
      ∧ footer (unitLabel ViewMode.verses)
          [{ parsed := { y := some 2 } }, { parsed := { y := some 0 } }
          , { parsed := { y := some 5 } }] = "Total: 7 verses" := by
  constructor
  · intro u tooltipItems
    rw [footer, List.sum_eq_foldl, List.foldl_map]
  · rfl

/-- C6: the minute formatter uses integer division with remainder and no
other rounding: `60 * h + m` minutes with `m < 60` renders as "<m>m" when
`h = 0` and as "<h>h <m>m" otherwise; in particular 0, 59, 60 and 125
minutes render "0m", "59m", "1h 0m" and "2h 5m". -/
theorem format_minutes_division (h m : Nat) (hm : m < 60) :
    formatMinutesToHoursMinutes (60 * h + m)
        = (if h = 0 then toString m ++ "m" else toString h ++ "h " ++ toString m ++ "m")
      ∧ formatMinutesToHoursMinutes 0 = "0m"
      ∧ formatMinutesToHoursMinutes 59 = "59m"
      ∧ formatMinutesToHoursMinutes 60 = "1h 0m"
      ∧ formatMinutesToHoursMinutes 125 = "2h 5m" := by
  refine ⟨?_, rfl, rfl, rfl, rfl⟩
  by_cases h0 : h = 0
  · subst h0
    simp [formatMinutesToHoursMinutes, hm]
  · have hge : ¬(60 * h + m < 60) := by omega
    have hdiv : (60 * h + m) / 60 = h := by omega
    have hmod : (60 * h + m) % 60 = m := by omega
    simp [formatMinutesToHoursMinutes, hge, h0, hdiv, hmod]

/-- C6 witness: 125 minutes, written as 60 * 2 + 5, renders "2h 5m". -/
theorem format_minutes_division_witness :
    formatMinutesToHoursMinutes (60 * 2 + 5)
        = (if 2 = 0 then toString 5 ++ "m" else toString 2 ++ "h " ++ toString 5 ++ "m")
      ∧ formatMinutesToHoursMinutes 0 = "0m"
      ∧ formatMinutesToHoursMinutes 59 = "59m"
      ∧ formatMinutesToHoursMinutes 60 = "1h 0m"
      ∧ formatMinutesToHoursMinutes 125 = "2h 5m" :=
  format_minutes_division 2 5 (by norm_num)

/-- C8: for every input and view mode, learning + young + mature equals the
displayed total for the OT partition, the NT partition and the grand total,
and the grand total also equals OT total plus NT total. -/
theorem totals_additive (data : BibleStats) (mode : ViewMode) :
    otTotal data mode = otLearning data mode + otYoung data mode + otMature data mode
      ∧ ntTotal data mode = ntLearning data mode + ntYoung data mode + ntMature data mode
      ∧ grandTotal data mode
          = totalLearning data mode + totalYoung data mode + totalMature data mode
      ∧ grandTotal data mode = otTotal data mode + ntTotal data mode := by
  refine ⟨rfl, rfl, rfl, ?_⟩
  simp only [grandTotal, totalLearning, totalYoung, totalMature, otTotal, ntTotal]
  omega

/-- C10: the combined filtered book list of the desktop chart, projected to
its BookStats fields, is exactly the OT filtered list followed by the NT
filtered list used by the mobile split charts. -/
theorem combined_equals_split_lists (data : BibleStats) (mode : ViewMode) :
    (combinedBooksFiltered data mode).map (fun b => b.stats)
      = otBooksFiltered data mode ++ ntBooksFiltered data mode := by
  rw [combinedBooksFiltered_eq, List.map_append, List.map_map, List.map_map]
  have hot : ((fun b : BookWithTestament => b.stats)
      ∘ fun book => ({ stats := book, testament := Testament.OT } : BookWithTestament)) = id := rfl
  have hnt : ((fun b : BookWithTestament => b.stats)
      ∘ fun book => ({ stats := book, testament := Testament.NT } : BookWithTestament)) = id := rfl
  rw [hot, hnt, List.map_id, List.map_id]

/-- C2: under the input contract (spec 6: per-partition totals computed
server-side from the per-book records), each displayed per-tier table total
equals the sum of that tier's values in the selected unit over all of that
partition's per-book records — with no dependence on chart filtering — and
each grand total per tier equals the OT total plus the NT total. -/
theorem table_totals_are_sums (data : BibleStats) (hw : data.Wf) (mode : ViewMode) :
    otLearning data mode
        = (data.old_testament.book_stats.map (fun b => getValue mode b Tier.learning)).sum
      ∧ otYoung data mode
        = (data.old_testament.book_stats.map (fun b => getValue mode b Tier.young)).sum
      ∧ otMature data mode
        = (data.old_testament.book_stats.map (fun b => getValue mode b Tier.mature)).sum
      ∧ ntLearning data mode
        = (data.new_testament.book_stats.map (fun b => getValue mode b Tier.learning)).sum
      ∧ ntYoung data mode
        = (data.new_testament.book_stats.map (fun b => getValue mode b Tier.young)).sum
      ∧ ntMature data mode
        = (data.new_testament.book_stats.map (fun b => getValue mode b Tier.mature)).sum
      ∧ totalLearning data mode = otLearning data mode + ntLearning data mode
      ∧ totalYoung data mode = otYoung data mode + ntYoung data mode
      ∧ totalMature data mode = otMature data mode + ntMature data mode := by
  obtain ⟨⟨ho1, ho2, ho3, ho4, ho5, ho6⟩, hn1, hn2, hn3, hn4, hn5, hn6⟩ := hw
  cases mode <;>
    simp_all [otLearning, otYoung, otMature, ntLearning, ntYoung, ntMature,
      totalLearning, totalYoung, totalMature, getValue]

/-- C2 witness: the table totals at a concrete contract-conforming input in
verses mode. -/
theorem table_totals_are_sums_witness :
    otLearning exBible ViewMode.verses
        = (exBible.old_testament.book_stats.map
            (fun b => getValue ViewMode.verses b Tier.learning)).sum
      ∧ otYoung exBible ViewMode.verses
        = (exBible.old_testament.book_stats.map
            (fun b => getValue ViewMode.verses b Tier.young)).sum
      ∧ otMature exBible ViewMode.verses
        = (exBible.old_testament.book_stats.map
            (fun b => getValue ViewMode.verses b Tier.mature)).sum
      ∧ ntLearning exBible ViewMode.verses
        = (exBible.new_testament.book_stats.map
            (fun b => getValue ViewMode.verses b Tier.learning)).sum
      ∧ ntYoung exBible ViewMode.verses
        = (exBible.new_testament.book_stats.map
            (fun b => getValue ViewMode.verses b Tier.young)).sum
      ∧ ntMature exBible ViewMode.verses
        = (exBible.new_testament.book_stats.map
            (fun b => getValue ViewMode.verses b Tier.mature)).sum
      ∧ totalLearning exBible ViewMode.verses
          = otLearning exBible ViewMode.verses + ntLearning exBible ViewMode.verses
      ∧ totalYoung exBible ViewMode.verses
          = otYoung exBible ViewMode.verses + ntYoung exBible ViewMode.verses
      ∧ totalMature exBible ViewMode.verses
          = otMature exBible ViewMode.verses + ntMature exBible ViewMode.verses :=
  table_totals_are_sums exBible (by decide) ViewMode.verses

/-- C3: the divider plugin draws nothing when the boundary index is
undefined, -1 or 0; and on every input whose filtered combined book list
contains no NT entry the computed boundary index is -1, so the overlay
draws nothing. -/
theorem divider_skips_without_boundary (data : BibleStats) (mode : ViewMode)
    (h : ∀ b ∈ combinedBooksFiltered data mode, b.testament = Testament.OT) :
    (∀ (f : Int → ℚ) (area : ChartArea),
        testamentDividerDraw none f area = none
          ∧ testamentDividerDraw (some (-1)) f area = none
          ∧ testamentDividerDraw (some 0) f area = none)
      ∧ ntStartIndex data mode = -1
      ∧ ∀ (f : Int → ℚ) (area : ChartArea),
          testamentDividerDraw (some (ntStartIndex data mode)) f area = none := by
  have hidx : ntStartIndex data mode = -1 := by
    apply findIndexJS_eq_neg_one_of_none
    intro b hb
    simp [h b hb]
  refine ⟨?_, hidx, ?_⟩
  · intro f area
    refine ⟨rfl, ?_, ?_⟩ <;> simp [testamentDividerDraw]
  · intro f area
    rw [hidx]
    simp [testamentDividerDraw]

/-- C3 witness: on a concrete all-OT input the boundary index is -1 and the
overlay draws nothing. -/
theorem divider_skips_without_boundary_witness :
    (∀ (f : Int → ℚ) (area : ChartArea),
        testamentDividerDraw none f area = none
          ∧ testamentDividerDraw (some (-1)) f area = none
          ∧ testamentDividerDraw (some 0) f area = none)
      ∧ ntStartIndex exBible ViewMode.verses = -1
      ∧ ∀ (f : Int → ℚ) (area : ChartArea),
          testamentDividerDraw (some (ntStartIndex exBible ViewMode.verses)) f area = none :=
  divider_skips_without_boundary exBible ViewMode.verses (by decide)

/-- C7: the derived label sequence of the combined chart is an
order-preserving subsequence of the canonical OT-then-NT book name list —
no sorting by value — and equals the filtered OT names followed by the
filtered NT names. -/
theorem labels_preserve_input_order (data : BibleStats) (mode : ViewMode) :
    List.Sublist (combinedChartData data mode).labels
        (data.old_testament.book_stats.map (fun b => b.book)
          ++ data.new_testament.book_stats.map (fun b => b.book))
      ∧ (combinedChartData data mode).labels
          = (otBooksFiltered data mode).map (fun b => b.book)
            ++ (ntBooksFiltered data mode).map (fun b => b.book) := by
  constructor
  · have h1 : List.Sublist (combinedBooksFiltered data mode) (combinedBooks data) :=
      List.filter_sublist _
    have h2 := h1.map (fun b => b.stats.book)
    have h3 : (combinedBooks data).map (fun b => b.stats.book)
        = data.old_testament.book_stats.map (fun b => b.book)
          ++ data.new_testament.book_stats.map (fun b => b.book) := by
      rw [combinedBooks, List.map_append, List.map_map, List.map_map]
      rfl
    exact h3 ▸ h2
  · have hlabels : (combinedChartData data mode).labels
        = (combinedBooksFiltered data mode).map (fun b => b.stats.book) := rfl
    rw [hlabels, combinedBooksFiltered_eq, List.map_append, List.map_map, List.map_map]
    rfl

/-- C9: every derived SeriesSet keeps its arrays index-aligned: in the
combined book chart each dataset's data array and each per-bar style array
has the labels' length and the value at index i comes from the book named
by label i; likewise for the mobile testament charts, the weekly study
chart and the weekly church chart. -/
theorem series_arrays_index_aligned (data : BibleStats) (mode : ViewMode)
    (wdata : FaithWeeklyStats) :
    ((combinedChartData data mode).datasets.Forall (fun d =>
        d.data.length = (combinedChartData data mode).labels.length
          ∧ d.backgroundColor.length = (combinedChartData data mode).labels.length
          ∧ d.borderColor.length = (combinedChartData data mode).labels.length
          ∧ d.hoverBackgroundColor.length = (combinedChartData data mode).labels.length
          ∧ ∃ field : Tier, ∀ i : Nat,
              d.data[i]? = ((combinedBooksFiltered data mode)[i]?).map
                (fun b => getValue mode b.stats field)))
      ∧ (∀ i : Nat,
          (combinedChartData data mode).labels[i]?
            = ((combinedBooksFiltered data mode)[i]?).map (fun b => b.stats.book))
      ∧ (∀ (books : List BookStats) (colors : TestamentPalette),
          (createTestamentChartData books colors mode).datasets.Forall (fun d =>
            d.data.length = (createTestamentChartData books colors mode).labels.length
              ∧ ∃ field : Tier, ∀ i : Nat,
                  d.data[i]? = (books[i]?).map (fun b => getValue mode b field)))
      ∧ (∀ (books : List BookStats) (colors : TestamentPalette) (i : Nat),
          (createTestamentChartData books colors mode).labels[i]?
            = (books[i]?).map (fun b => b.book))
      ∧ ((weeklyStudyChartData wdata).datasets.Forall (fun d =>
          d.data.length = (weeklyStudyChartData wdata).labels.length
            ∧ ∃ f ∈ ([fun w => w.reading_minutes, fun w => w.prayer_minutes,
                fun w => w.anki_minutes] : List (WeekStats → Nat)),
                ∀ i : Nat, d.data[i]? = (wdata.weeks[i]?).map f))
      ∧ (∀ i : Nat,
          (weeklyStudyChartData wdata).labels[i]?
            = (wdata.weeks[i]?).map (fun w => formatDate w.week_start))
      ∧ ((weeklyChurchChartData wdata).datasets.Forall (fun d =>
          d.data.length = (weeklyChurchChartData wdata).labels.length
            ∧ ∃ k : Nat, ∀ i : Nat,
                d.data[i]? = (wdata.weeks[i]?).map
                  (fun w => w.at_church_daily_minutes.getD k 0)))
      ∧ (∀ i : Nat,
          (weeklyChurchChartData wdata).labels[i]?
            = (wdata.weeks[i]?).map (fun w => formatDate w.week_start)) := by
  refine ⟨?_, ?_, ?_, ?_, ?_, ?_, ?_, ?_⟩
  · rw [List.forall_iff_forall_mem]
    intro d hd
    simp only [combinedChartData, List.mem_cons, List.not_mem_nil, or_false] at hd
    rcases hd with rfl | rfl | rfl
    · exact ⟨by simp [combinedChartData], by simp [combinedChartData],
        by simp [combinedChartData], by simp [combinedChartData],
        Tier.mature, fun i => by simp [List.getElem?_map]⟩
    · exact ⟨by simp [combinedChartData], by simp [combinedChartData],
        by simp [combinedChartData], by simp [combinedChartData],
        Tier.young, fun i => by simp [List.getElem?_map]⟩
    · exact ⟨by simp [combinedChartData], by simp [combinedChartData],
        by simp [combinedChartData], by simp [combinedChartData],
        Tier.learning, fun i => by simp [List.getElem?_map]⟩
  · intro i
    simp [combinedChartData, List.getElem?_map]
  · intro books colors
    rw [List.forall_iff_forall_mem]
    intro d hd
    simp only [createTestamentChartData, List.mem_cons, List.not_mem_nil, or_false] at hd
    rcases hd with rfl | rfl | rfl
    · exact ⟨by simp [createTestamentChartData],
        Tier.mature, fun i => by cases mode <;> simp [getValue, List.getElem?_map]⟩
    · exact ⟨by simp [createTestamentChartData],
        Tier.young, fun i => by cases mode <;> simp [getValue, List.getElem?_map]⟩
    · exact ⟨by simp [createTestamentChartData],
        Tier.learning, fun i => by cases mode <;> simp [getValue, List.getElem?_map]⟩
  · intro books colors i
    simp [createTestamentChartData, List.getElem?_map]
  · rw [List.forall_iff_forall_mem]
    intro d hd
    simp only [weeklyStudyChartData, List.mem_cons, List.not_mem_nil, or_false] at hd
    rcases hd with rfl | rfl | rfl
    · exact ⟨by simp [weeklyStudyChartData],
        fun w => w.reading_minutes, by simp, fun i => by simp [List.getElem?_map]⟩
    · exact ⟨by simp [weeklyStudyChartData],
        fun w => w.prayer_minutes, by simp, fun i => by simp [List.getElem?_map]⟩
    · exact ⟨by simp [weeklyStudyChartData],
        fun w => w.anki_minutes, by simp, fun i => by simp [List.getElem?_map]⟩
  · intro i
    simp [weeklyStudyChartData, List.getElem?_map]
  · rw [List.forall_iff_forall_mem]
    intro d hd
    simp only [weeklyChurchChartData] at hd
    have hd2 := List.mem_of_mem_filter hd
    rcases List.mem_map.1 hd2 with ⟨di, hdi, rfl⟩
    refine ⟨by simp [weeklyChurchChartData], di.1, fun i => by simp [List.getElem?_map]⟩
  · intro i
    simp [weeklyChurchChartData, List.getElem?_map]
